import Mathlib

/-
  Verification of the eufy_security P2P client library.

  Shallow embedding of the Python source under eufy_security/:
    - p2p/lib32100.py   : frame codec (create_message / datagram_received)
    - p2p/discovery.py  : remote and local discovery protocol state machines
    - station.py        : session acquisition policy (async_establish_session / connect)
    - device.py, types.py : parameter accessor layer (params / async_set_params)

  Bytes are modelled as Nat (values < 256 where produced by the code),
  byte strings as List Nat, Python str as List Char (ASCII: each char's
  code point is its encoded byte).  Fallible Python code (exceptions)
  is modelled with Option / Except.
-/

namespace EufySecurity

/-! ## Frame codec (p2p/lib32100.py) -/

/-- Modelled from the spec: the closed response-type enumeration
`P2PClientProtocolResponseMessageType` lives in eufy_security/p2p/types.py,
which is not among the provided sources.  The spec names two response codes,
`LOOKUP_ADDR` and `LOCAL_LOOKUP_RESP`; their concrete 2-byte values are not
fixed by the spec, so representative distinct 2-byte codes are chosen here.
No theorem below depends on the particular byte values. -/
inductive P2PClientProtocolResponseMessageType where
  | LOOKUP_ADDR
  | LOCAL_LOOKUP_RESP
deriving DecidableEq, Repr

/-- Modelled from the spec: the 2-byte wire code of each response type
(the enum member's `.value` in Python). -/
def P2PClientProtocolResponseMessageType.value :
    P2PClientProtocolResponseMessageType → List Nat
  | .LOOKUP_ADDR => [0xF1, 0x40]
  | .LOCAL_LOOKUP_RESP => [0xF1, 0x41]

/-- Modelled from the spec: the enum lookup `P2PClientProtocolResponseMessageType(code)`;
an unknown code raises (`none`), per the spec a protocol error. -/
def lookupResponseType (code : List Nat) :
    Option P2PClientProtocolResponseMessageType :=
  if code = [0xF1, 0x40] then some .LOOKUP_ADDR
  else if code = [0xF1, 0x41] then some .LOCAL_LOOKUP_RESP
  else none

/-- `BaseP2PClientProtocol.create_message` (lib32100.py lines 12-21).
`msg_type_value` is the request enum member's 2-byte `.value`.
The Python builds `msg = type_bytes ++ [floor(len/256), len % 256] ++ payload`;
`bytearray.append` raises `ValueError` when its argument exceeds 255, which
happens exactly when `len(payload) / 256 > 255`, i.e. `len(payload) > 65535`
(`none` models that exception). -/
def create_message (msg_type_value : List Nat) (payload : List Nat) :
    Option (List Nat) :=
  if payload.length / 256 ≤ 255 then
    some (msg_type_value ++ [payload.length / 256, payload.length % 256] ++ payload)
  else
    none

/-- `BaseP2PClientProtocol.datagram_received` (lib32100.py lines 23-26), up to
the dispatch into `process_response`: the first 2 bytes are looked up in the
response-type enumeration (raising on unknown codes, modelled `none`) and the
REMAINDER `data[2:]` — length prefix included — becomes the payload. -/
def datagram_received (data : List Nat) :
    Option (P2PClientProtocolResponseMessageType × List Nat) :=
  match lookupResponseType (data.take 2) with
  | some msg_type => some (msg_type, data.drop 2)
  | none => none

/-- The big-endian 16-bit byte pair of `n` (meaningful for `n ≤ 65535`);
used to state the frame layout independently of `create_message`. -/
def big_endian16 (n : Nat) : List Nat :=
  [n / 256, n % 256]

/-- Claim C9: `create_message` produces exactly the 2 type bytes, then the
payload length as a big-endian 16-bit integer, then the payload; it succeeds
for every payload of length ≤ 65535, and fails exactly when the length
exceeds 65535. -/
theorem create_message_layout_and_bounds (msg_type_value payload : List Nat) :
    (payload.length ≤ 65535 →
      create_message msg_type_value payload =
        some (msg_type_value ++ big_endian16 payload.length ++ payload)) ∧
    (65535 < payload.length → create_message msg_type_value payload = none) := by
  constructor
  · intro h
    have h1 : payload.length / 256 ≤ 255 := by omega
    simp [create_message, big_endian16, h1]
  · intro h
    have h1 : ¬ payload.length / 256 ≤ 255 := by omega
    simp [create_message, h1]

/-- Witness for C9 at concrete inputs: a 3-byte payload encodes to the exact
frame, and a 65536-byte payload is rejected. -/
theorem create_message_layout_and_bounds_witness :
    create_message [0xF1, 0x40] [1, 2, 3] = some [0xF1, 0x40, 0, 3, 1, 2, 3] ∧
    create_message [0xF1, 0x40] (List.replicate 65536 0) = none := by
  constructor
  · have h := (create_message_layout_and_bounds [0xF1, 0x40] [1, 2, 3]).1 (by decide)
    simpa [big_endian16] using h
  · exact (create_message_layout_and_bounds [0xF1, 0x40] (List.replicate 65536 0)).2
      (by rw [List.length_replicate]; omega)

/-- Claim C1 as stated is false: decoding the datagram produced by encoding
does NOT return the original payload — the recovered payload keeps the 2-byte
length prefix.  Concretely, encoding payload `[7]` under the `LOOKUP_ADDR`
code and decoding yields payload `[0, 1, 7]`, not `[7]`. -/
theorem frame_roundtrip_counterexample :
    (create_message P2PClientProtocolResponseMessageType.LOOKUP_ADDR.value [7]).bind
        datagram_received =
      some (P2PClientProtocolResponseMessageType.LOOKUP_ADDR, [0, 1, 7]) ∧
    ([0, 1, 7] : List Nat) ≠ [7] := by
  constructor
  · decide
  · decide

/-- Claim C1 (amended): for every response-type code and payload with
length ≤ 65535, decoding the encoded datagram yields the original type, and a
payload equal to the 2-byte big-endian length prefix followed by the original
payload (so the original payload is `(recovered).drop 2`, not `recovered`). -/
theorem frame_roundtrip_keeps_length_prefix
    (msg_type : P2PClientProtocolResponseMessageType) (payload : List Nat)
    (h : payload.length ≤ 65535) :
    (create_message msg_type.value payload).bind datagram_received =
      some (msg_type, big_endian16 payload.length ++ payload) := by
  have h1 : payload.length / 256 ≤ 255 := by omega
  cases msg_type <;>
    simp [create_message, datagram_received, lookupResponseType,
      P2PClientProtocolResponseMessageType.value, big_endian16, h1]

/-- Witness for the amended C1 at a concrete input. -/
theorem frame_roundtrip_keeps_length_prefix_witness :
    (create_message P2PClientProtocolResponseMessageType.LOCAL_LOOKUP_RESP.value
        [9, 9]).bind datagram_received =
      some (P2PClientProtocolResponseMessageType.LOCAL_LOOKUP_RESP, [0, 2, 9, 9]) := by
  have h := frame_roundtrip_keeps_length_prefix
    P2PClientProtocolResponseMessageType.LOCAL_LOOKUP_RESP [9, 9] (by decide)
  simpa [big_endian16] using h

/-! ## Remote discovery (p2p/discovery.py, DiscoveryP2PClientProtocol)

The protocol object's mutable fields (`addresses`, `response_count`) and the
`on_lookup_complete` asyncio future are modelled as a record; the future is
`none` while pending and `some r` once resolved, where `r` is the value of
`self.addresses` at resolution time. -/

/-- A socket address `(ip, port)` as produced by the discovery clients. -/
abbrev SockAddr := String × Nat

/-- Mutable state of `DiscoveryP2PClientProtocol` (discovery.py lines 11-68). -/
structure DiscoveryP2PClientProtocol where
  addresses : List SockAddr
  response_count : Nat
  on_lookup_complete : Option (List SockAddr)
deriving DecidableEq, Repr

/-- `__init__` (discovery.py lines 12-18): empty candidate list, zero
responses, pending future. -/
def DiscoveryP2PClientProtocol.init : DiscoveryP2PClientProtocol :=
  { addresses := [], response_count := 0, on_lookup_complete := none }

/-- `DiscoveryP2PClientProtocol.return_candidates` (discovery.py lines 66-68):
resolve the future with the current candidate list only if it is not yet done. -/
def DiscoveryP2PClientProtocol.return_candidates
    (st : DiscoveryP2PClientProtocol) : DiscoveryP2PClientProtocol :=
  if st.on_lookup_complete.isSome then st
  else { st with on_lookup_complete := some st.addresses }

/-- The dotted-quad string `f"{a}.{b}.{c}.{d}"`. -/
def dotted_quad (a b c d : Nat) : String :=
  Nat.repr a ++ "." ++ Nat.repr b ++ "." ++ Nat.repr c ++ "." ++ Nat.repr d

/-- `DiscoveryP2PClientProtocol.process_response` (discovery.py lines 49-64).
On a `LOOKUP_ADDR` datagram: port is `payload[5] * 256 + payload[4]`, ip is
the dotted quad of `payload[9]`, `payload[8]`, `payload[7]`, `payload[6]`;
the candidate is appended and the future resolved once the second response
arrives.  Indexing raises `IndexError` on payloads shorter than 10 bytes
(`none`).  Other message types leave the state untouched (`addr` is unused,
as in the source). -/
def DiscoveryP2PClientProtocol.process_response
    (st : DiscoveryP2PClientProtocol)
    (msg_type : P2PClientProtocolResponseMessageType)
    (payload : List Nat) (_addr : SockAddr) :
    Option DiscoveryP2PClientProtocol :=
  if msg_type = .LOOKUP_ADDR then
    if 10 ≤ payload.length then
      let port := payload.getD 5 0 * 256 + payload.getD 4 0
      let ip := dotted_quad (payload.getD 9 0) (payload.getD 8 0)
        (payload.getD 7 0) (payload.getD 6 0)
      let st1 : DiscoveryP2PClientProtocol :=
        { st with addresses := st.addresses ++ [(ip, port)],
                  response_count := st.response_count + 1 }
      some (if st1.response_count = 2 then st1.return_candidates else st1)
    else none
  else some st

/-- An externally visible event of one remote lookup: an inbound datagram
(already split into type/payload/sender by `datagram_received`) or the firing
of the 1.5 s timer armed in `connection_made`. -/
inductive DiscoveryEvent where
  | datagram (msg_type : P2PClientProtocolResponseMessageType)
      (payload : List Nat) (addr : SockAddr)
  | timerFires
deriving DecidableEq, Repr

/-- One event against the remote protocol: datagrams go through
`process_response`; the timer task calls `return_candidates`
(discovery.py lines 45-47). -/
def DiscoveryP2PClientProtocol.step (st : DiscoveryP2PClientProtocol) :
    DiscoveryEvent → Option DiscoveryP2PClientProtocol
  | .datagram msg_type payload addr => st.process_response msg_type payload addr
  | .timerFires => some st.return_candidates

/-- Run a sequence of events from a state. -/
def DiscoveryP2PClientProtocol.run (st : DiscoveryP2PClientProtocol) :
    List DiscoveryEvent → Option DiscoveryP2PClientProtocol
  | [] => some st
  | e :: es => (st.step e).bind (fun st1 => st1.run es)

/-- The number of `LOOKUP_ADDR` datagrams in an event sequence. -/
def lookupAddrCount (events : List DiscoveryEvent) : Nat :=
  (events.filter (fun e =>
    match e with
    | .datagram .LOOKUP_ADDR _ _ => true
    | _ => false)).length

/-- An event whose processing cannot raise: `LOOKUP_ADDR` datagrams must
carry at least 10 payload bytes (shorter ones die with `IndexError`). -/
def DiscoveryEvent.wellFormed : DiscoveryEvent → Prop
  | .datagram .LOOKUP_ADDR payload _ => 10 ≤ payload.length
  | _ => True

/-! ## Local discovery (p2p/discovery.py, LocalDiscoveryP2PClientProtocol) -/

/-- Mutable state of `LocalDiscoveryP2PClientProtocol` (discovery.py
lines 71-106). -/
structure LocalDiscoveryP2PClientProtocol where
  addresses : List SockAddr
  on_lookup_complete : Option (List SockAddr)
deriving DecidableEq, Repr

/-- `__init__` (discovery.py lines 72-76). -/
def LocalDiscoveryP2PClientProtocol.init : LocalDiscoveryP2PClientProtocol :=
  { addresses := [], on_lookup_complete := none }

/-- `LocalDiscoveryP2PClientProtocol.return_candidates` (discovery.py
lines 104-106). -/
def LocalDiscoveryP2PClientProtocol.return_candidates
    (st : LocalDiscoveryP2PClientProtocol) : LocalDiscoveryP2PClientProtocol :=
  if st.on_lookup_complete.isSome then st
  else { st with on_lookup_complete := some st.addresses }

/-- `LocalDiscoveryP2PClientProtocol.process_response` (discovery.py
lines 94-102): on a `LOCAL_LOOKUP_RESP` datagram, append the sender's socket
address and resolve; every other type is ignored.  The payload is never
inspected, so no exception is possible. -/
def LocalDiscoveryP2PClientProtocol.process_response
    (st : LocalDiscoveryP2PClientProtocol)
    (msg_type : P2PClientProtocolResponseMessageType)
    (_payload : List Nat) (addr : SockAddr) : LocalDiscoveryP2PClientProtocol :=
  if msg_type = .LOCAL_LOOKUP_RESP then
    ({ st with addresses := st.addresses ++ [addr] }).return_candidates
  else st

/-- An inbound datagram for the local protocol, post `datagram_received`. -/
abbrev LocalDatagram := P2PClientProtocolResponseMessageType × List Nat × SockAddr

/-- Run a sequence of inbound datagrams against the local protocol. -/
def LocalDiscoveryP2PClientProtocol.run
    (st : LocalDiscoveryP2PClientProtocol) (ds : List LocalDatagram) :
    LocalDiscoveryP2PClientProtocol :=
  ds.foldl (fun s d => s.process_response d.1 d.2.1 d.2.2) st

/-! ### Helper lemmas about `return_candidates` and `run` -/

theorem DiscoveryP2PClientProtocol.return_candidates_response_count
    (st : DiscoveryP2PClientProtocol) :
    st.return_candidates.response_count = st.response_count := by
  unfold DiscoveryP2PClientProtocol.return_candidates
  split <;> rfl

theorem DiscoveryP2PClientProtocol.return_candidates_addresses
    (st : DiscoveryP2PClientProtocol) :
    st.return_candidates.addresses = st.addresses := by
  unfold DiscoveryP2PClientProtocol.return_candidates
  split <;> rfl

theorem DiscoveryP2PClientProtocol.return_candidates_isSome
    (st : DiscoveryP2PClientProtocol) :
    st.return_candidates.on_lookup_complete.isSome = true := by
  unfold DiscoveryP2PClientProtocol.return_candidates
  split <;> simp_all

theorem lookupAddrCount_nil : lookupAddrCount [] = 0 := rfl

theorem DiscoveryP2PClientProtocol.mk_count (a : List SockAddr) (c : Nat)
    (o : Option (List SockAddr)) :
    (DiscoveryP2PClientProtocol.mk a c o).response_count = c := rfl

theorem DiscoveryP2PClientProtocol.mk_complete (a : List SockAddr) (c : Nat)
    (o : Option (List SockAddr)) :
    (DiscoveryP2PClientProtocol.mk a c o).on_lookup_complete = o := rfl

theorem lookupAddrCount_cons_lookup_addr (payload : List Nat) (addr : SockAddr)
    (es : List DiscoveryEvent) :
    lookupAddrCount (DiscoveryEvent.datagram .LOOKUP_ADDR payload addr :: es) =
      lookupAddrCount es + 1 := by
  simp [lookupAddrCount, List.filter_cons]

theorem lookupAddrCount_cons_local_resp (payload : List Nat) (addr : SockAddr)
    (es : List DiscoveryEvent) :
    lookupAddrCount (DiscoveryEvent.datagram .LOCAL_LOOKUP_RESP payload addr :: es) =
      lookupAddrCount es := by
  simp [lookupAddrCount, List.filter_cons]

theorem lookupAddrCount_cons_timer (es : List DiscoveryEvent) :
    lookupAddrCount (DiscoveryEvent.timerFires :: es) = lookupAddrCount es := by
  simp [lookupAddrCount, List.filter_cons]

/-- Core invariant of one remote lookup: from any starting state, running a
well-formed event sequence never raises, the response counter counts exactly
the `LOOKUP_ADDR` datagrams, and the future is resolved exactly when it
already was, a timer fired, or the counter passed through 2. -/
theorem DiscoveryP2PClientProtocol.run_resolved_iff
    (events : List DiscoveryEvent) :
    ∀ st : DiscoveryP2PClientProtocol,
      (∀ e ∈ events, e.wellFormed) →
      ∃ st', st.run events = some st' ∧
        st'.response_count = st.response_count + lookupAddrCount events ∧
        (st'.on_lookup_complete.isSome = true ↔
          st.on_lookup_complete.isSome = true ∨
          DiscoveryEvent.timerFires ∈ events ∨
          (st.response_count < 2 ∧
            2 ≤ st.response_count + lookupAddrCount events)) := by
  induction events with
  | nil =>
    intro st _
    refine ⟨st, rfl, by rw [lookupAddrCount_nil]; omega, ?_⟩
    rw [lookupAddrCount_nil]
    constructor
    · exact fun h1 => Or.inl h1
    · rintro (h1 | h1 | ⟨h1, h2⟩)
      · exact h1
      · exact absurd h1 (List.not_mem_nil _)
      · omega
  | cons e es ih =>
    intro st h
    have hes : ∀ x ∈ es, x.wellFormed := fun x hx => h x (List.mem_cons_of_mem _ hx)
    have he : e.wellFormed := h e (List.mem_cons_self _ _)
    cases e with
    | timerFires =>
      obtain ⟨st', hrun, hcount, hiff⟩ := ih st.return_candidates hes
      refine ⟨st', ?_, ?_, ?_⟩
      · simp only [DiscoveryP2PClientProtocol.run, DiscoveryP2PClientProtocol.step]
        simpa using hrun
      · rw [hcount, DiscoveryP2PClientProtocol.return_candidates_response_count,
          lookupAddrCount_cons_timer]
      · have hres : st'.on_lookup_complete.isSome = true :=
          hiff.mpr (Or.inl (st.return_candidates_isSome))
        refine ⟨fun _ => Or.inr (Or.inl (List.mem_cons_self _ _)), fun _ => hres⟩
    | datagram msg_type payload addr =>
      cases msg_type with
      | LOCAL_LOOKUP_RESP =>
        obtain ⟨st', hrun, hcount, hiff⟩ := ih st hes
        refine ⟨st', ?_, ?_, ?_⟩
        · simp only [DiscoveryP2PClientProtocol.run, DiscoveryP2PClientProtocol.step,
            DiscoveryP2PClientProtocol.process_response]
          simpa using hrun
        · rw [hcount, lookupAddrCount_cons_local_resp]
        · rw [hiff, lookupAddrCount_cons_local_resp]
          have hmem : (DiscoveryEvent.timerFires ∈
              DiscoveryEvent.datagram .LOCAL_LOOKUP_RESP payload addr :: es) ↔
              DiscoveryEvent.timerFires ∈ es := by
            simp [List.mem_cons]
          rw [hmem]
      | LOOKUP_ADDR =>
        have hlen : 10 ≤ payload.length := he
        have hmem : (DiscoveryEvent.timerFires ∈
            DiscoveryEvent.datagram .LOOKUP_ADDR payload addr :: es) ↔
            DiscoveryEvent.timerFires ∈ es := by
          simp [List.mem_cons]
        by_cases hc : st.response_count + 1 = 2
        · -- the second response resolves the future here
          obtain ⟨st', hrun, hcount, hiff⟩ :=
            ih ({ st with
                addresses := st.addresses ++
                  [(dotted_quad (payload.getD 9 0) (payload.getD 8 0)
                      (payload.getD 7 0) (payload.getD 6 0),
                    payload.getD 5 0 * 256 + payload.getD 4 0)],
                response_count :=
                  st.response_count + 1 }).return_candidates hes
          have hstep : st.process_response .LOOKUP_ADDR payload addr =
              some ({ st with
                addresses := st.addresses ++
                  [(dotted_quad (payload.getD 9 0) (payload.getD 8 0)
                      (payload.getD 7 0) (payload.getD 6 0),
                    payload.getD 5 0 * 256 + payload.getD 4 0)],
                response_count :=
                  st.response_count + 1 }).return_candidates := by
            unfold DiscoveryP2PClientProtocol.process_response
            rw [if_pos rfl, if_pos hlen]
            exact congrArg some (if_pos hc)
          refine ⟨st', ?_, ?_, ?_⟩
          · simp only [DiscoveryP2PClientProtocol.run,
              DiscoveryP2PClientProtocol.step]
            rw [hstep]
            simpa using hrun
          · rw [hcount, DiscoveryP2PClientProtocol.return_candidates_response_count,
              DiscoveryP2PClientProtocol.mk_count, lookupAddrCount_cons_lookup_addr]
            omega
          · have hres : st'.on_lookup_complete.isSome = true :=
              hiff.mpr (Or.inl (DiscoveryP2PClientProtocol.return_candidates_isSome _))
            refine ⟨fun _ => Or.inr (Or.inr ⟨by omega, ?_⟩), fun _ => hres⟩
            rw [lookupAddrCount_cons_lookup_addr]
            omega
        · -- not the second response: counter advances, no resolution here
          obtain ⟨st', hrun, hcount, hiff⟩ :=
            ih { st with
                addresses := st.addresses ++
                  [(dotted_quad (payload.getD 9 0) (payload.getD 8 0)
                      (payload.getD 7 0) (payload.getD 6 0),
                    payload.getD 5 0 * 256 + payload.getD 4 0)],
                response_count := st.response_count + 1 } hes
          have hstep : st.process_response .LOOKUP_ADDR payload addr =
              some { st with
                addresses := st.addresses ++
                  [(dotted_quad (payload.getD 9 0) (payload.getD 8 0)
                      (payload.getD 7 0) (payload.getD 6 0),
                    payload.getD 5 0 * 256 + payload.getD 4 0)],
                response_count := st.response_count + 1 } := by
            unfold DiscoveryP2PClientProtocol.process_response
            rw [if_pos rfl, if_pos hlen]
            exact congrArg some (if_neg hc)
          refine ⟨st', ?_, ?_, ?_⟩
          · simp only [DiscoveryP2PClientProtocol.run,
              DiscoveryP2PClientProtocol.step]
            rw [hstep]
            simpa using hrun
          · rw [hcount, DiscoveryP2PClientProtocol.mk_count,
              lookupAddrCount_cons_lookup_addr]
            omega
          · rw [hiff, DiscoveryP2PClientProtocol.mk_complete,
              DiscoveryP2PClientProtocol.mk_count, hmem, lookupAddrCount_cons_lookup_addr]
            have harith : (st.response_count + 1 < 2 ∧
                2 ≤ st.response_count + 1 + lookupAddrCount es) ↔
                (st.response_count < 2 ∧
                  2 ≤ st.response_count + (lookupAddrCount es + 1)) := by
              omega
            rw [harith]

/-- When no `LOOKUP_ADDR` datagram occurs, the candidate list stays as it
was, nothing raises, and a timer firing resolves the future with exactly
that list. -/
theorem DiscoveryP2PClientProtocol.run_no_responses
    (events : List DiscoveryEvent) :
    ∀ st : DiscoveryP2PClientProtocol,
      lookupAddrCount events = 0 →
      ∃ st', st.run events = some st' ∧ st'.addresses = st.addresses ∧
        (st'.on_lookup_complete = st.on_lookup_complete ∨
          st'.on_lookup_complete = some st.addresses) ∧
        (DiscoveryEvent.timerFires ∈ events →
          st'.on_lookup_complete.isSome = true) := by
  induction events with
  | nil =>
    intro st _
    exact ⟨st, rfl, rfl, Or.inl rfl, by simp⟩
  | cons e es ih =>
    intro st hcount
    cases e with
    | timerFires =>
      have hes : lookupAddrCount es = 0 := by
        rw [lookupAddrCount_cons_timer] at hcount
        exact hcount
      obtain ⟨st', hrun, haddr, hres, _⟩ := ih st.return_candidates hes
      have hresolved : ∀ r, st'.on_lookup_complete = some r →
          st'.on_lookup_complete.isSome = true := by
        intro r hr; rw [hr]; rfl
      refine ⟨st', ?_, ?_, ?_, ?_⟩
      · simp only [DiscoveryP2PClientProtocol.run, DiscoveryP2PClientProtocol.step]
        simpa using hrun
      · rw [haddr, DiscoveryP2PClientProtocol.return_candidates_addresses]
      · rcases hres with h1 | h1
        · rw [h1]
          unfold DiscoveryP2PClientProtocol.return_candidates
          split
          · exact Or.inl rfl
          · exact Or.inr rfl
        · rw [h1, DiscoveryP2PClientProtocol.return_candidates_addresses]
          exact Or.inr rfl
      · intro _
        rcases hres with h1 | h1
        · rw [h1]; exact st.return_candidates_isSome
        · exact hresolved _ h1
    | datagram msg_type payload addr =>
      cases msg_type with
      | LOOKUP_ADDR =>
        exfalso
        rw [lookupAddrCount_cons_lookup_addr] at hcount
        omega
      | LOCAL_LOOKUP_RESP =>
        have hes : lookupAddrCount es = 0 := by
          rw [lookupAddrCount_cons_local_resp] at hcount
          exact hcount
        obtain ⟨st', hrun, haddr, hres, htimer⟩ := ih st hes
        refine ⟨st', ?_, haddr, hres, ?_⟩
        · simp only [DiscoveryP2PClientProtocol.run, DiscoveryP2PClientProtocol.step,
            DiscoveryP2PClientProtocol.process_response]
          simpa using hrun
        · intro hmem
          rcases List.mem_cons.mp hmem with h1 | h1
          · exact absurd h1 (by simp)
          · exact htimer h1


/-- Claim C5: a remote lookup completes at the earlier of two events — two
`LOOKUP_ADDR` responses collected, or the timer firing — and a timer firing
with zero responses resolves normally (no exception) with the empty
candidate list. -/
theorem discovery_lookup_completion :
    (∀ events : List DiscoveryEvent, (∀ e ∈ events, e.wellFormed) →
      ∃ st, DiscoveryP2PClientProtocol.init.run events = some st ∧
        (st.on_lookup_complete.isSome ↔
          2 ≤ lookupAddrCount events ∨ DiscoveryEvent.timerFires ∈ events)) ∧
    (∀ events : List DiscoveryEvent, lookupAddrCount events = 0 →
      DiscoveryEvent.timerFires ∈ events →
      ∃ st, DiscoveryP2PClientProtocol.init.run events = some st ∧
        st.on_lookup_complete = some []) := by
  constructor
  · intro events h
    obtain ⟨st, hrun, _, hiff⟩ :=
      DiscoveryP2PClientProtocol.run_resolved_iff events
        DiscoveryP2PClientProtocol.init h
    refine ⟨st, hrun, ?_⟩
    rw [hiff]
    simp [DiscoveryP2PClientProtocol.init]
    tauto
  · intro events hcount htimer
    obtain ⟨st, hrun, haddr, hres, hsome⟩ :=
      DiscoveryP2PClientProtocol.run_no_responses events
        DiscoveryP2PClientProtocol.init hcount
    refine ⟨st, hrun, ?_⟩
    rcases hres with h | h
    · exfalso
      have := hsome htimer
      rw [h] at this
      simp [DiscoveryP2PClientProtocol.init] at this
    · simpa [DiscoveryP2PClientProtocol.init] using h

/-- Witness for C5: a lone timer firing resolves the lookup with `[]`. -/
theorem discovery_lookup_completion_witness :
    (DiscoveryP2PClientProtocol.init.run [DiscoveryEvent.timerFires]).map
      (fun st => st.on_lookup_complete) = some (some []) := by
  obtain ⟨st, hrun, hres⟩ :=
    discovery_lookup_completion.2 [DiscoveryEvent.timerFires] (by decide) (by decide)
  rw [hrun, Option.map_some']
  rw [hres]

/-! ### Resolution idempotence and local discovery lemmas -/

theorem DiscoveryP2PClientProtocol.return_candidates_of_isSome
    (st : DiscoveryP2PClientProtocol)
    (h : st.on_lookup_complete.isSome = true) : st.return_candidates = st := by
  unfold DiscoveryP2PClientProtocol.return_candidates
  rw [if_pos h]

theorem LocalDiscoveryP2PClientProtocol.return_candidates_resolved_noop
    (st : LocalDiscoveryP2PClientProtocol)
    (h : st.on_lookup_complete.isSome = true) : st.return_candidates = st := by
  unfold LocalDiscoveryP2PClientProtocol.return_candidates
  rw [if_pos h]

theorem LocalDiscoveryP2PClientProtocol.process_response_preserves_resolved
    (st : LocalDiscoveryP2PClientProtocol) (r : List SockAddr)
    (msg_type : P2PClientProtocolResponseMessageType)
    (payload : List Nat) (addr : SockAddr)
    (h : st.on_lookup_complete = some r) :
    (st.process_response msg_type payload addr).on_lookup_complete = some r := by
  unfold LocalDiscoveryP2PClientProtocol.process_response
  split
  · rw [LocalDiscoveryP2PClientProtocol.return_candidates_resolved_noop _ (by rw [h]; rfl)]
    exact h
  · exact h

theorem LocalDiscoveryP2PClientProtocol.run_preserves_resolved
    (ds : List LocalDatagram) :
    ∀ (st : LocalDiscoveryP2PClientProtocol) (r : List SockAddr),
      st.on_lookup_complete = some r → (st.run ds).on_lookup_complete = some r := by
  induction ds with
  | nil => intro st r h; exact h
  | cons d ds ih =>
    intro st r h
    exact ih _ r (st.process_response_preserves_resolved r d.1 d.2.1 d.2.2 h)

theorem LocalDiscoveryP2PClientProtocol.run_append
    (st : LocalDiscoveryP2PClientProtocol) (l1 l2 : List LocalDatagram) :
    st.run (l1 ++ l2) = (st.run l1).run l2 := by
  simp [LocalDiscoveryP2PClientProtocol.run, List.foldl_append]

theorem LocalDiscoveryP2PClientProtocol.run_skips_other_types
    (ds : List LocalDatagram) :
    ∀ st : LocalDiscoveryP2PClientProtocol,
      (∀ d ∈ ds, d.1 ≠ P2PClientProtocolResponseMessageType.LOCAL_LOOKUP_RESP) →
      st.run ds = st := by
  induction ds with
  | nil => intro st _; rfl
  | cons d ds ih =>
    intro st h
    have hd : d.1 ≠ P2PClientProtocolResponseMessageType.LOCAL_LOOKUP_RESP :=
      h d (List.mem_cons_self _ _)
    have hstep : st.process_response d.1 d.2.1 d.2.2 = st := by
      unfold LocalDiscoveryP2PClientProtocol.process_response
      rw [if_neg hd]
    show (st.process_response d.1 d.2.1 d.2.2).run ds = st
    rw [hstep]
    exact ih st (fun x hx => h x (List.mem_cons_of_mem _ hx))

/-- Claim C6: resolving a lookup's result is idempotent.  Once the result
future is resolved, a further completion trigger — the remote timer firing
(`step .timerFires`), any further `return_candidates` call, or a further
remote/local response — neither changes the delivered result nor raises. -/
theorem lookup_resolution_idempotent :
    (∀ st : DiscoveryP2PClientProtocol, st.on_lookup_complete.isSome = true →
      st.return_candidates = st ∧ st.step DiscoveryEvent.timerFires = some st) ∧
    (∀ (st : DiscoveryP2PClientProtocol) (r : List SockAddr)
        (msg_type : P2PClientProtocolResponseMessageType)
        (payload : List Nat) (addr : SockAddr)
        (st' : DiscoveryP2PClientProtocol),
      st.on_lookup_complete = some r →
      st.process_response msg_type payload addr = some st' →
      st'.on_lookup_complete = some r) ∧
    (∀ st : LocalDiscoveryP2PClientProtocol, st.on_lookup_complete.isSome = true →
      st.return_candidates = st ∧
      ∀ (msg_type : P2PClientProtocolResponseMessageType)
        (payload : List Nat) (addr : SockAddr),
        (st.process_response msg_type payload addr).on_lookup_complete =
          st.on_lookup_complete) := by
  refine ⟨?_, ?_, ?_⟩
  · intro st h
    have h1 := st.return_candidates_of_isSome h
    refine ⟨h1, ?_⟩
    simp only [DiscoveryP2PClientProtocol.step, h1]
  · intro st r msg_type payload addr st' h hproc
    cases msg_type with
    | LOCAL_LOOKUP_RESP =>
      unfold DiscoveryP2PClientProtocol.process_response at hproc
      rw [if_neg (by simp)] at hproc
      cases hproc
      exact h
    | LOOKUP_ADDR =>
      unfold DiscoveryP2PClientProtocol.process_response at hproc
      rw [if_pos rfl] at hproc
      by_cases hlen : 10 ≤ payload.length
      · rw [if_pos hlen] at hproc
        rcases Option.some.inj hproc with rfl
        split
        · rw [DiscoveryP2PClientProtocol.return_candidates_of_isSome _ (by rw [h]; rfl)]
          exact h
        · exact h
      · rw [if_neg hlen] at hproc
        exact absurd hproc (by simp)
  · intro st h
    refine ⟨st.return_candidates_resolved_noop h, ?_⟩
    intro msg_type payload addr
    obtain ⟨r, hr⟩ := Option.isSome_iff_exists.mp h
    rw [st.process_response_preserves_resolved r msg_type payload addr hr, hr]

/-- Witness for C6: concrete already-resolved states are left unchanged by a
further completion trigger, for both the remote and the local protocol. -/
theorem lookup_resolution_idempotent_witness :
    ((⟨[("1.2.3.4", 80)], 1, some [("1.2.3.4", 80)]⟩ :
        DiscoveryP2PClientProtocol).return_candidates =
      ⟨[("1.2.3.4", 80)], 1, some [("1.2.3.4", 80)]⟩) ∧
    ((⟨[("1.2.3.4", 80)], some [("1.2.3.4", 80)]⟩ :
        LocalDiscoveryP2PClientProtocol).return_candidates =
      ⟨[("1.2.3.4", 80)], some [("1.2.3.4", 80)]⟩) :=
  ⟨(lookup_resolution_idempotent.1
      ⟨[("1.2.3.4", 80)], 1, some [("1.2.3.4", 80)]⟩ rfl).1,
   (lookup_resolution_idempotent.2.2
      ⟨[("1.2.3.4", 80)], some [("1.2.3.4", 80)]⟩ rfl).1⟩

/-- Claim C7: in a local discovery lookup, the first `LOCAL_LOOKUP_RESP`
datagram resolves the lookup immediately with the responding socket address
as the single candidate, and the delivered result is unaffected by any later
datagrams (duplicate responses included). -/
theorem local_first_response_resolves
    (pre : List LocalDatagram) (payload : List Nat) (addr : SockAddr)
    (post : List LocalDatagram)
    (hpre : ∀ d ∈ pre, d.1 ≠ P2PClientProtocolResponseMessageType.LOCAL_LOOKUP_RESP) :
    (LocalDiscoveryP2PClientProtocol.init.run
        (pre ++ [(P2PClientProtocolResponseMessageType.LOCAL_LOOKUP_RESP,
          payload, addr)])).on_lookup_complete = some [addr] ∧
    (LocalDiscoveryP2PClientProtocol.init.run
        (pre ++ (P2PClientProtocolResponseMessageType.LOCAL_LOOKUP_RESP,
          payload, addr) :: post)).on_lookup_complete = some [addr] := by
  have hfirst : LocalDiscoveryP2PClientProtocol.init.process_response
      P2PClientProtocolResponseMessageType.LOCAL_LOOKUP_RESP payload addr =
      ⟨[addr], some [addr]⟩ := by
    unfold LocalDiscoveryP2PClientProtocol.process_response
    rw [if_pos rfl]
    rfl
  constructor
  · rw [LocalDiscoveryP2PClientProtocol.run_append,
      LocalDiscoveryP2PClientProtocol.run_skips_other_types pre _ hpre]
    show (LocalDiscoveryP2PClientProtocol.init.process_response
      P2PClientProtocolResponseMessageType.LOCAL_LOOKUP_RESP payload addr).on_lookup_complete = some [addr]
    rw [hfirst]
  · have hsplit : pre ++ (P2PClientProtocolResponseMessageType.LOCAL_LOOKUP_RESP,
        payload, addr) :: post =
        (pre ++ [(P2PClientProtocolResponseMessageType.LOCAL_LOOKUP_RESP,
          payload, addr)]) ++ post := by
      simp
    rw [hsplit, LocalDiscoveryP2PClientProtocol.run_append,
      LocalDiscoveryP2PClientProtocol.run_append,
      LocalDiscoveryP2PClientProtocol.run_skips_other_types pre _ hpre]
    refine LocalDiscoveryP2PClientProtocol.run_preserves_resolved post _ _ ?_
    show (LocalDiscoveryP2PClientProtocol.init.process_response
      P2PClientProtocolResponseMessageType.LOCAL_LOOKUP_RESP payload addr).on_lookup_complete = some [addr]
    rw [hfirst]

/-- Witness for C7: a concrete response followed by a duplicate still
delivers only the first responder. -/
theorem local_first_response_resolves_witness :
    (LocalDiscoveryP2PClientProtocol.init.run
        ([] ++ (P2PClientProtocolResponseMessageType.LOCAL_LOOKUP_RESP, [],
            ("10.0.0.5", 32108)) ::
          [(P2PClientProtocolResponseMessageType.LOCAL_LOOKUP_RESP, [],
            ("10.0.0.5", 32108))])).on_lookup_complete =
      some [("10.0.0.5", 32108)] :=
  (local_first_response_resolves [] [] ("10.0.0.5", 32108)
    [(P2PClientProtocolResponseMessageType.LOCAL_LOOKUP_RESP, [],
      ("10.0.0.5", 32108))] (by simp)).2

/-- Claim C8: on a `LOOKUP_ADDR` datagram with payload `p` (at least 10 bytes,
else `IndexError`), the appended candidate is `(ip, port)` with
`port = p[5] * 256 + p[4]` and `ip` the dotted quad of `p[9]`, `p[8]`, `p[7]`,
`p[6]` in that order; datagrams of any other response type append nothing. -/
theorem process_response_candidate_parsing :
    (∀ (st : DiscoveryP2PClientProtocol) (payload : List Nat) (addr : SockAddr),
      10 ≤ payload.length →
      ∃ st', st.process_response P2PClientProtocolResponseMessageType.LOOKUP_ADDR
          payload addr = some st' ∧
        st'.addresses = st.addresses ++
          [(dotted_quad (payload.getD 9 0) (payload.getD 8 0)
              (payload.getD 7 0) (payload.getD 6 0),
            payload.getD 5 0 * 256 + payload.getD 4 0)]) ∧
    (∀ (st : DiscoveryP2PClientProtocol)
        (msg_type : P2PClientProtocolResponseMessageType)
        (payload : List Nat) (addr : SockAddr),
      msg_type ≠ P2PClientProtocolResponseMessageType.LOOKUP_ADDR →
      st.process_response msg_type payload addr = some st) := by
  constructor
  · intro st payload addr hlen
    by_cases hc : st.response_count + 1 = 2
    · have hstep : st.process_response P2PClientProtocolResponseMessageType.LOOKUP_ADDR
          payload addr =
          some ({ st with
              addresses := st.addresses ++
                [(dotted_quad (payload.getD 9 0) (payload.getD 8 0)
                    (payload.getD 7 0) (payload.getD 6 0),
                  payload.getD 5 0 * 256 + payload.getD 4 0)],
              response_count := st.response_count + 1 }).return_candidates := by
        unfold DiscoveryP2PClientProtocol.process_response
        rw [if_pos rfl, if_pos hlen]
        exact congrArg some (if_pos hc)
      exact ⟨_, hstep,
        by rw [DiscoveryP2PClientProtocol.return_candidates_addresses]⟩
    · have hstep : st.process_response P2PClientProtocolResponseMessageType.LOOKUP_ADDR
          payload addr =
          some { st with
              addresses := st.addresses ++
                [(dotted_quad (payload.getD 9 0) (payload.getD 8 0)
                    (payload.getD 7 0) (payload.getD 6 0),
                  payload.getD 5 0 * 256 + payload.getD 4 0)],
              response_count := st.response_count + 1 } := by
        unfold DiscoveryP2PClientProtocol.process_response
        rw [if_pos rfl, if_pos hlen]
        exact congrArg some (if_neg hc)
      exact ⟨_, hstep, rfl⟩
  · intro st msg_type payload addr hne
    unfold DiscoveryP2PClientProtocol.process_response
    rw [if_neg hne]

/-- Witness for C8: byte layout at a concrete payload — bytes 4/5 little-endian
give port 8080, bytes 9..6 give "10.0.0.5". -/
theorem process_response_candidate_parsing_witness :
    (DiscoveryP2PClientProtocol.init.process_response
        P2PClientProtocolResponseMessageType.LOOKUP_ADDR
        [0, 0, 0, 0, 144, 31, 5, 0, 0, 10] ("relay", 32100)).map
      (fun st => st.addresses) = some [("10.0.0.5", 8080)] := by
  obtain ⟨st', h1, h2⟩ := process_response_candidate_parsing.1
    DiscoveryP2PClientProtocol.init [0, 0, 0, 0, 144, 31, 5, 0, 0, 10]
    ("relay", 32100) (by decide)
  rw [h1, Option.map_some', h2]
  decide

/-! ## LOOKUP_WITH_KEY request payload (p2p/discovery.py, connection_made) -/

/-- Python `str.split(sep)` for a one-character separator. -/
def split_on_char (sep : Char) : List Char → List (List Char)
  | [] => [[]]
  | c :: cs =>
    if c = sep then [] :: split_on_char sep cs
    else
      match split_on_char sep cs with
      | [] => [[c]]
      | g :: gs => (c :: g) :: gs

/-- Python `int(s)` restricted to non-empty decimal digit strings (all inputs
the claims exercise); anything else raises `ValueError` (`none`).  Python's
`int` additionally accepts signs and surrounding whitespace, which no input
in this code path carries. -/
def parse_int (s : List Char) : Option Nat :=
  if s ≠ [] ∧ s.all (fun c => c.isDigit) then
    some (s.foldl (fun acc c => acc * 10 + (c.toNat - 48)) 0)
  else none

/-- Python `n.to_bytes(len, byteorder="big")`; raises `OverflowError`
(`none`) when `n` does not fit in `len` bytes. -/
def int_to_bytes_be (n len : Nat) : Option (List Nat) :=
  if n < 256 ^ len then
    some ((List.range len).map (fun i => n / 256 ^ (len - 1 - i) % 256))
  else none

/-- Python `n.to_bytes(len, byteorder="little")`; raises `OverflowError`
(`none`) when `n` does not fit in `len` bytes. -/
def int_to_bytes_le (n len : Nat) : Option (List Nat) :=
  if n < 256 ^ len then
    some ((List.range len).map (fun i => n / 256 ^ i % 256))
  else none

/-- The byte encoding of a Python string (`str.encode()`); for the ASCII
identifiers and keys involved here, UTF-8 bytes coincide with code points. -/
def str_bytes (s : List Char) : List Nat := s.map Char.toNat

/-- The list comprehension `[int(x) for x in xs]`: raises on the first
non-numeric entry. -/
def parse_octets : List (List Char) → Option (List Nat)
  | [] => some []
  | s :: ss =>
    match parse_int s, parse_octets ss with
    | some v, some vs => some (v :: vs)
    | _, _ => none

/-- The `LOOKUP_WITH_KEY` payload built by
`DiscoveryP2PClientProtocol.connection_made` (discovery.py lines 20-34):
P2P-DID components from `p2p_did.split("-")` (prefix bytes,
`int(components[1]).to_bytes(5, "big")`, suffix bytes), 5 zero bytes, the
bound port as `port.to_bytes(2, "little")`, the bound IPv4 address octets
reversed (`[int(x) for x in ip.split(".")[::-1]]`), the fixed 12-byte
pad/flag block, the key bytes, 4 zero bytes. -/
def connection_made_payload (p2p_did key sock_ip : List Char)
    (sock_port : Nat) : Option (List Nat) := do
  let comps := split_on_char '-' p2p_did
  let c0 ← comps[0]?
  let c1 ← comps[1]?
  let c2 ← comps[2]?
  let n ← parse_int c1
  let nBytes ← int_to_bytes_be n 5
  let portBytes ← int_to_bytes_le sock_port 2
  let octetsRev ← parse_octets (split_on_char '.' sock_ip).reverse
  some (str_bytes c0 ++ nBytes ++ str_bytes c2 ++
    [0x00, 0x00, 0x00, 0x00, 0x00] ++ portBytes ++ octetsRev ++
    [0x00, 0x00, 0x00, 0x00, 0x00, 0x00, 0x00, 0x00, 0x02, 0x04, 0x00, 0x00] ++
    str_bytes key ++ [0x00, 0x00, 0x00, 0x00])

theorem int_to_bytes_be_five (n : Nat) (h : n < 256 ^ 5) :
    int_to_bytes_be n 5 =
      some [n / 256 ^ 4 % 256, n / 256 ^ 3 % 256, n / 256 ^ 2 % 256,
        n / 256 % 256, n % 256] := by
  unfold int_to_bytes_be
  rw [if_pos h]
  norm_num [List.range_succ]

theorem int_to_bytes_le_two (n : Nat) (h : n < 256 ^ 2) :
    int_to_bytes_le n 2 = some [n % 256, n / 256 % 256] := by
  unfold int_to_bytes_le
  rw [if_pos h]
  norm_num [List.range_succ]

/-- Claim C2 (amended: the fixed pad/flag block has 12 bytes, not 13): for a
P2P-DID splitting into prefix, numeric segment and suffix, the request
payload is exactly prefix bytes, the parsed number as 5 big-endian bytes,
suffix bytes, 5 zero bytes, the port as 2 little-endian bytes, the 4 address
octets in reversed order, the fixed block 00 00 00 00 00 00 00 00 02 04 00 00,
the key bytes, and 4 trailing zero bytes. -/
theorem lookup_with_key_payload_layout
    (p2p_did key sock_ip : List Char) (sock_port : Nat)
    (pre num suf a b c d : List Char) (n o1 o2 o3 o4 : Nat)
    (hsplit : split_on_char '-' p2p_did = [pre, num, suf])
    (hn : parse_int num = some n) (hn5 : n < 256 ^ 5)
    (hport : sock_port < 65536)
    (hip : split_on_char '.' sock_ip = [a, b, c, d])
    (ha : parse_int a = some o1) (hb : parse_int b = some o2)
    (hc : parse_int c = some o3) (hd : parse_int d = some o4) :
    connection_made_payload p2p_did key sock_ip sock_port =
      some (str_bytes pre ++
        [n / 256 ^ 4 % 256, n / 256 ^ 3 % 256, n / 256 ^ 2 % 256,
          n / 256 % 256, n % 256] ++
        str_bytes suf ++
        [0, 0, 0, 0, 0] ++
        [sock_port % 256, sock_port / 256 % 256] ++
        [o4, o3, o2, o1] ++
        [0, 0, 0, 0, 0, 0, 0, 0, 2, 4, 0, 0] ++
        str_bytes key ++
        [0, 0, 0, 0]) := by
  have hport2 : sock_port < 256 ^ 2 := by norm_num; omega
  simp [connection_made_payload, hsplit, hip, hn, parse_octets, ha, hb, hc, hd,
    int_to_bytes_be_five n hn5, int_to_bytes_le_two sock_port hport2]

/-- Claim C2 as stated is false only in its count of the padding/flag bytes:
the fixed sequence 00 00 00 00 00 00 00 00 02 04 00 00 the payload carries
(shown here in full at the spec's end-to-end scenario: P2P-DID "AB-00001-CD",
key "k", socket 10.0.0.5:40000) has 12 bytes, not 13. -/
theorem lookup_with_key_padding_counterexample :
    connection_made_payload "AB-00001-CD".toList "k".toList "10.0.0.5".toList
        40000 =
      some ([65, 66] ++ [0, 0, 0, 0, 1] ++ [67, 68] ++ [0, 0, 0, 0, 0] ++
        [64, 156] ++ [5, 0, 0, 10] ++
        [0, 0, 0, 0, 0, 0, 0, 0, 2, 4, 0, 0] ++ [107] ++ [0, 0, 0, 0]) ∧
    ([0, 0, 0, 0, 0, 0, 0, 0, 2, 4, 0, 0] : List Nat).length ≠ 13 := by
  constructor
  · decide
  · decide

/-- Witness for the amended C2 at the spec's end-to-end scenario. -/
theorem lookup_with_key_payload_layout_witness :
    connection_made_payload "AB-00001-CD".toList "k".toList "10.0.0.5".toList
        40000 =
      some [65, 66, 0, 0, 0, 0, 1, 67, 68, 0, 0, 0, 0, 0, 64, 156, 5, 0, 0, 10,
        0, 0, 0, 0, 0, 0, 0, 0, 2, 4, 0, 0, 107, 0, 0, 0, 0] := by
  have h := lookup_with_key_payload_layout "AB-00001-CD".toList "k".toList
    "10.0.0.5".toList 40000 "AB".toList "00001".toList "CD".toList
    "10".toList "0".toList "0".toList "5".toList 1 10 0 0 5
    (by decide) (by decide) (by decide) (by decide) (by decide)
    (by decide) (by decide) (by decide) (by decide)
  rw [h]
  decide

/-! ## Session acquisition policy (station.py)

`P2PSession` lives in eufy_security/p2p/session.py, which is not among the
provided sources; its externally visible contract is modelled from the spec
(state machine `UNCONNECTED -> CONNECTING -> CONNECTED -> CLOSED`, with
`CONNECTING -> CLOSED` directly on handshake failure, `valid_for`, and an
idempotent `close`).  `Station.async_establish_session` and `Station.connect`
are embedded from station.py; the scoped `async with`/`yield` block is
modelled by passing in the outcome of the caller's body (normal return or a
raised exception) and returning both the overall outcome and the final state
of every session the policy touched. -/

/-- Modelled from the spec: the session state machine of §4.4. -/
inductive P2PSessionState where
  | connecting
  | connected
  | closed
deriving DecidableEq, Repr

/-- A `P2PSession` as constructed in `Station.connect` (serial, p2p_did,
dsk_key, acting user id) together with its spec-modelled lifecycle state. -/
structure P2PSession where
  serial : String
  p2p_did : String
  dsk_key : String
  action_user_id : String
  state : P2PSessionState
deriving DecidableEq, Repr

/-- Modelled from the spec: `valid_for(serial)` is true only when the
session's bound device serial equals `serial`. -/
def P2PSession.valid_for (s : P2PSession) (serial : String) : Bool :=
  s.serial = serial

/-- Modelled from the spec: `close()` releases the underlying socket; it is
idempotent and safe after a failed or partial connect. -/
def P2PSession.close (s : P2PSession) : P2PSession :=
  { s with state := .closed }

/-- Modelled from the spec: the opaque authenticate-or-fail handshake of
`P2PSession.connect`.  On success the session is CONNECTED; on failure it
goes directly to CLOSED and never exposes a usable connected session. -/
def P2PSession.connectStep (s : P2PSession) (handshake_ok : Bool) : P2PSession :=
  if handshake_ok then { s with state := .connected }
  else { s with state := .closed }

/-- Whether the caller's code inside the scoped block returns normally or
raises. -/
inductive BodyOutcome where
  | ok
  | raises (msg : String)
deriving DecidableEq, Repr

/-- The overall completion of the scoped acquisition as seen by the caller. -/
def BodyOutcome.toExcept : BodyOutcome → Except String Unit
  | .ok => .ok ()
  | .raises msg => .error msg

/-- One `dsk_keys` entry of the REST response consumed by `Station.connect`. -/
structure DskKeyEntry where
  station_sn : String
  dsk_key : String
deriving DecidableEq, Repr

/-- The station fields `Station.connect` reads from `device_info`. -/
structure StationInfo where
  station_sn : String
  station_name : String
  p2p_did : String
  action_user_id : String
deriving DecidableEq, Repr

/-- What one run of a scoped acquisition did: the final state of the session
the policy itself opened (if any), and the overall outcome (the body's
result, or the error the policy raised). -/
structure ConnectOutcome where
  opened : Option P2PSession
  result : Except String Unit
deriving Repr

/-- `Station.connect` (station.py lines 36-59) run to completion around a
caller body.  The first `dsk_keys` item matching the station serial is used
(the `for`/`else` raises a discovery-key error when none matches); a
`P2PSession` is constructed and its handshake run; on success the body runs
inside `try: yield p2p_session / finally: await p2p_session.close()`, so the
session is closed whether the body returns or raises; on handshake failure
`EufySecurityP2PError` is raised (station.py performs no explicit close on
that path — the session reached CLOSED through the spec's state machine). -/
def station_connect (st : StationInfo) (dsk_keys : List DskKeyEntry)
    (handshake_ok : Bool) (body : BodyOutcome) : ConnectOutcome :=
  match dsk_keys.find? (fun item => item.station_sn = st.station_sn) with
  | none =>
    { opened := none,
      result := .error ("Could not find discovery key for " ++ st.station_name) }
  | some item =>
    let s0 : P2PSession :=
      { serial := st.station_sn, p2p_did := st.p2p_did,
        dsk_key := item.dsk_key, action_user_id := st.action_user_id,
        state := .connecting }
    let s1 := s0.connectStep handshake_ok
    if handshake_ok then
      { opened := some s1.close, result := body.toExcept }
    else
      { opened := some s1,
        result := .error ("Could not connect to " ++ st.station_name) }

/-- What one run of `async_establish_session` did: whether the body ran with
the caller-supplied session, the supplied session after scope exit
(unchanged means it was not closed), the policy-opened session's final state
(if one was opened), and the overall outcome. -/
structure EstablishOutcome where
  usedSupplied : Bool
  supplied : Option P2PSession
  opened : Option P2PSession
  result : Except String Unit
deriving Repr

/-- `Station.async_establish_session` (station.py lines 26-34) run to
completion around a caller body: if a session was supplied and
`session.valid_for(self.serial)` holds, the body runs with it and nothing is
opened or closed; otherwise the policy falls through to
`async with self.connect() as session`. -/
def station_establish_session (st : StationInfo) (session : Option P2PSession)
    (dsk_keys : List DskKeyEntry) (handshake_ok : Bool) (body : BodyOutcome) :
    EstablishOutcome :=
  match session with
  | some s =>
    if s.valid_for st.station_sn then
      { usedSupplied := true, supplied := some s, opened := none,
        result := body.toExcept }
    else
      let c := station_connect st dsk_keys handshake_ok body
      { usedSupplied := false, supplied := some s, opened := c.opened,
        result := c.result }
  | none =>
    let c := station_connect st dsk_keys handshake_ok body
    { usedSupplied := false, supplied := none, opened := c.opened,
      result := c.result }

/-- Claim C3: when the caller supplies a session valid for the target serial,
that session is yielded as-is and is not closed (nor otherwise altered) on
scope exit, and nothing new is opened; when the policy instead opens a
session itself (none supplied, key found, handshake succeeded), that session
is closed on scope exit even when the body raises. -/
theorem establish_session_release_policy
    (st : StationInfo) (dsk_keys : List DskKeyEntry) (handshake_ok : Bool)
    (body : BodyOutcome) :
    (∀ s : P2PSession, s.valid_for st.station_sn = true →
      station_establish_session st (some s) dsk_keys handshake_ok body =
        { usedSupplied := true, supplied := some s, opened := none,
          result := body.toExcept }) ∧
    (∀ item : DskKeyEntry,
      dsk_keys.find? (fun item => item.station_sn = st.station_sn) = some item →
      handshake_ok = true →
      ∃ opened : P2PSession,
        (station_establish_session st none dsk_keys handshake_ok body).opened =
          some opened ∧
        opened.state = P2PSessionState.closed ∧
        (station_establish_session st none dsk_keys handshake_ok body).result =
          body.toExcept) := by
  constructor
  · intro s hvalid
    simp [station_establish_session, hvalid]
  · intro item hfind hok
    subst hok
    have h1 : (station_establish_session st none dsk_keys true body).opened =
        some
          { serial := st.station_sn, p2p_did := st.p2p_did,
            dsk_key := item.dsk_key, action_user_id := st.action_user_id,
            state := P2PSessionState.closed } := by
      simp [station_establish_session, station_connect, hfind,
        P2PSession.connectStep, P2PSession.close]
    refine ⟨_, h1, rfl, ?_⟩
    simp [station_establish_session, station_connect, hfind]

/-- Witness for C3 at concrete inputs: a valid supplied session is returned
untouched, and a policy-opened session (raising body) ends closed. -/
theorem establish_session_release_policy_witness :
    (station_establish_session
        ⟨"SN1", "Base", "AB-00001-CD", "user"⟩
        (some ⟨"SN1", "AB-00001-CD", "key", "user", .connected⟩)
        [⟨"SN1", "dsk"⟩] true .ok =
      { usedSupplied := true,
        supplied := some ⟨"SN1", "AB-00001-CD", "key", "user", .connected⟩,
        opened := none, result := .ok () }) ∧
    (∃ opened : P2PSession,
      (station_establish_session ⟨"SN1", "Base", "AB-00001-CD", "user"⟩ none
          [⟨"SN1", "dsk"⟩] true (.raises "boom")).opened = some opened ∧
      opened.state = P2PSessionState.closed ∧
      (station_establish_session ⟨"SN1", "Base", "AB-00001-CD", "user"⟩ none
          [⟨"SN1", "dsk"⟩] true (.raises "boom")).result =
        .error "boom") :=
  ⟨(establish_session_release_policy ⟨"SN1", "Base", "AB-00001-CD", "user"⟩
      [⟨"SN1", "dsk"⟩] true .ok).1
      ⟨"SN1", "AB-00001-CD", "key", "user", .connected⟩ (by decide),
   (establish_session_release_policy ⟨"SN1", "Base", "AB-00001-CD", "user"⟩
      [⟨"SN1", "dsk"⟩] true (.raises "boom")).2
      ⟨"SN1", "dsk"⟩ (by decide) rfl⟩

/-- Claim C4: every session `Station.connect` creates is closed on every exit
from the scoped acquisition — body returning, body raising, and in particular
the handshake-failure path, where the acquisition raises the connection error
with the created session already closed (per the spec's session state
machine, since station.py itself calls no close there). -/
theorem connect_closes_created_session
    (st : StationInfo) (dsk_keys : List DskKeyEntry) (handshake_ok : Bool)
    (body : BodyOutcome) :
    (∀ opened : P2PSession,
      (station_connect st dsk_keys handshake_ok body).opened = some opened →
      opened.state = P2PSessionState.closed) ∧
    (∀ item : DskKeyEntry,
      dsk_keys.find? (fun item => item.station_sn = st.station_sn) = some item →
      handshake_ok = false →
      ∃ opened : P2PSession,
        (station_connect st dsk_keys handshake_ok body).opened = some opened ∧
        opened.state = P2PSessionState.closed ∧
        (station_connect st dsk_keys handshake_ok body).result =
          .error ("Could not connect to " ++ st.station_name)) := by
  constructor
  · intro opened hopened
    cases hfind : dsk_keys.find? (fun item => item.station_sn = st.station_sn) with
    | none =>
      have hnone : (station_connect st dsk_keys handshake_ok body).opened = none := by
        simp [station_connect, hfind]
      rw [hnone] at hopened
      cases hopened
    | some item =>
      cases handshake_ok with
      | true =>
        have hsome : (station_connect st dsk_keys true body).opened =
            some
              { serial := st.station_sn, p2p_did := st.p2p_did,
                dsk_key := item.dsk_key, action_user_id := st.action_user_id,
                state := P2PSessionState.closed } := by
          simp [station_connect, hfind, P2PSession.connectStep, P2PSession.close]
        rw [hsome] at hopened
        rcases Option.some.inj hopened with rfl
        rfl
      | false =>
        have hsome : (station_connect st dsk_keys false body).opened =
            some
              { serial := st.station_sn, p2p_did := st.p2p_did,
                dsk_key := item.dsk_key, action_user_id := st.action_user_id,
                state := P2PSessionState.closed } := by
          simp [station_connect, hfind, P2PSession.connectStep]
        rw [hsome] at hopened
        rcases Option.some.inj hopened with rfl
        rfl
  · intro item hfind hok
    subst hok
    have h1 : (station_connect st dsk_keys false body).opened =
        some
          { serial := st.station_sn, p2p_did := st.p2p_did,
            dsk_key := item.dsk_key, action_user_id := st.action_user_id,
            state := P2PSessionState.closed } := by
      simp [station_connect, hfind, P2PSession.connectStep]
    refine ⟨_, h1, rfl, ?_⟩
    simp [station_connect, hfind]

/-- Witness for C4 at concrete inputs: a failed handshake raises the
connection error and leaves the created session closed. -/
theorem connect_closes_created_session_witness :
    ∃ opened : P2PSession,
      (station_connect ⟨"SN1", "Base", "AB-00001-CD", "user"⟩ [⟨"SN1", "dsk"⟩]
          false .ok).opened = some opened ∧
      opened.state = P2PSessionState.closed ∧
      (station_connect ⟨"SN1", "Base", "AB-00001-CD", "user"⟩ [⟨"SN1", "dsk"⟩]
          false .ok).result = .error "Could not connect to Base" :=
  (connect_closes_created_session ⟨"SN1", "Base", "AB-00001-CD", "user"⟩
    [⟨"SN1", "dsk"⟩] false .ok).2 ⟨"SN1", "dsk"⟩ (by decide) rfl

/-! ## Parameter accessor layer (types.py / device.py) -/

/-- The numeric values of all `ParamType` enumeration members (types.py
lines 120-287).  `ParamType(code)` succeeds exactly for these; any other
code raises `ValueError`. -/
def param_type_codes : List Nat :=
  [2015, 2023, 2004, 2005, 2028, 2027, 2006, 2042, 2032, 2033, 2029, 2030,
   2039, 2041, 2035, 2038, 2036, 2034, 2040, 2037, 2031, 2002, 2001, 2022,
   2010, 2007, 2003, 1271, 1214, 1134, 1133, 1257, 1224, 1131, 1101, 2111,
   1550, 1400, 1401, 1412, 1413, 1272, 1230, 1366, 1250, 1249, 1013, 1011,
   1142, 1204, 99904, 1285, 1710, 1287, 1158, 1157, 1273, 1277, 1276, 1166,
   1702, 1703, 1168, 1056, 1171, 1716, 1145, 1146, 1150, 1708, 1149, 1173,
   1243, 1177, 1210, 1704, 1408, 1709, 1241, 1239, 1225, 1240, 1045, 1246,
   1167, 1148, 1163, 1015, 1138, 1169, 1172, 1229, 1174, 1552, 1551, 1507,
   1141, 1508, 1506, 1670, 1043, 1253, 1265, 1160, 1283, 1176, 1135, 1200,
   1266, 1281, 1282, 1159, 1280, 1236, 1256, 1140, 1290, 1291, 1252]

/-- The methods `ParamType` defines (types.py lines 122-146): `lookup`,
`load`, `dump`.  Neither `read_value` nor `write_value` is among them, so
accessing those attributes raises `AttributeError`. -/
def param_type_method_names : List String := ["lookup", "load", "dump"]

/-- The Python exception that escapes the parameter accessors (the
`ValueError` of a failed enum lookup is caught inside them). -/
inductive PyError where
  | attributeError (attr : String)
deriving DecidableEq, Repr

/-- `Device.params` (device.py lines 61-75), restricted to the dict keys it
would produce.  Per entry the source runs, inside `try ... except ValueError`:
`param_type = ParamType(param_type)` (non-member codes raise `ValueError`,
which is caught and the entry skipped), then
`params[param_type] = param_type.read_value(value)`.  The `read_value`
attribute access either raises `AttributeError` (not caught by the
`except ValueError` clause, so it propagates) or — were the method defined —
would produce the stored value; since no claim concerns the values, the
model collects the member codes that would be stored. -/
def device_params : List (Nat × String) → Except PyError (List Nat)
  | [] => .ok []
  | (code, _value) :: rest =>
    if code ∈ param_type_codes then
      if "read_value" ∈ param_type_method_names then
        match device_params rest with
        | .ok keys => .ok (code :: keys)
        | .error e => .error e
      else
        .error (.attributeError "read_value")
    else
      device_params rest

/-- A key of the dict passed to `Device.async_set_params`: a `ParamType`
member (carrying its numeric value) or any other key
(`isinstance(param_type, ParamType)` distinguishes them). -/
inductive ParamKey where
  | ptype (code : Nat)
  | raw (code : Nat)
deriving DecidableEq, Repr

/-- The serialization loop of `Device.async_set_params` (device.py lines
82-89): for `ParamType` keys the source first runs
`value = param_type.write_value(value)` — an attribute access that raises
`AttributeError` since `write_value` is not defined — then would replace the
key by its numeric value; other keys pass through untouched. -/
def async_set_params_serialize :
    List (ParamKey × String) → Except PyError (List (Nat × String))
  | [] => .ok []
  | (.ptype code, value) :: rest =>
    if "write_value" ∈ param_type_method_names then
      match async_set_params_serialize rest with
      | .ok out => .ok ((code, value) :: out)
      | .error e => .error e
    else
      .error (.attributeError "write_value")
  | (.raw code, value) :: rest =>
    match async_set_params_serialize rest with
    | .ok out => .ok ((code, value) :: out)
    | .error e => .error e

/-- Claim C10: `ParamType` defines the converter methods `load` and `dump`
but no `read_value` or `write_value`; consequently `Device.params` raises
`AttributeError` for every device whose `params` list contains at least one
`ParamType` member code, and `Device.async_set_params` raises
`AttributeError` whenever its dict has a `ParamType` key — the accessor
veneer never returns a recognized parameter value. -/
theorem param_accessor_attribute_errors :
    ("load" ∈ param_type_method_names ∧ "dump" ∈ param_type_method_names ∧
      "read_value" ∉ param_type_method_names ∧
      "write_value" ∉ param_type_method_names) ∧
    (∀ entries : List (Nat × String),
      (∃ e ∈ entries, e.1 ∈ param_type_codes) →
      device_params entries = .error (.attributeError "read_value")) ∧
    (∀ params : List (ParamKey × String),
      (∃ p ∈ params, ∃ code, p.1 = ParamKey.ptype code) →
      async_set_params_serialize params =
        .error (.attributeError "write_value")) := by
  refine ⟨by decide, ?_, ?_⟩
  · intro entries
    induction entries with
    | nil =>
      rintro ⟨e, he, _⟩
      exact absurd he (List.not_mem_nil _)
    | cons hd tl ih =>
      rcases hd with ⟨code, value⟩
      rintro ⟨e, he, hmem⟩
      by_cases hcode : code ∈ param_type_codes
      · show (if code ∈ param_type_codes then _ else _) = _
        rw [if_pos hcode,
          if_neg (by decide : ¬ "read_value" ∈ param_type_method_names)]
      · show (if code ∈ param_type_codes then _ else _) = _
        rw [if_neg hcode]
        rcases List.mem_cons.mp he with rfl | htl
        · exact absurd hmem hcode
        · exact ih ⟨e, htl, hmem⟩
  · intro params
    induction params with
    | nil =>
      rintro ⟨p, hp, _⟩
      exact absurd hp (List.not_mem_nil _)
    | cons hd tl ih =>
      rcases hd with ⟨k, value⟩
      rintro ⟨p, hp, code, hcode⟩
      cases k with
      | ptype c =>
        show (if "write_value" ∈ param_type_method_names then _ else _) = _
        rw [if_neg (by decide : ¬ "write_value" ∈ param_type_method_names)]
      | raw c =>
        have htl : async_set_params_serialize tl =
            .error (.attributeError "write_value") := by
          rcases List.mem_cons.mp hp with rfl | hmem
          · exact absurd hcode (by simp)
          · exact ih ⟨p, hmem, code, hcode⟩
        show (match async_set_params_serialize tl with
          | .ok out => Except.ok (((c, value)) :: out)
          | .error e => Except.error e) = _
        rw [htl]

/-- Witness for C10: a battery-level entry (member code 1101) makes
`Device.params` raise, and a guard-mode key (member 1224) makes
`Device.async_set_params` raise. -/
theorem param_accessor_attribute_errors_witness :
    device_params [(1101, "50")] =
      Except.error (PyError.attributeError "read_value") ∧
    async_set_params_serialize [(ParamKey.ptype 1224, "0")] =
      Except.error (PyError.attributeError "write_value") :=
  ⟨param_accessor_attribute_errors.2.1 [(1101, "50")]
      ⟨(1101, "50"), by decide, by decide⟩,
   param_accessor_attribute_errors.2.2 [(ParamKey.ptype 1224, "0")]
      ⟨(ParamKey.ptype 1224, "0"), by decide, 1224, rfl⟩⟩

end EufySecurity
